import Mathlib

/-!
Shallow embedding of the core of the `x_to_slack` repository:
the tweet-processing pipeline (`src/services/tweet-processor.ts`),
the search-query builder (`src/utils/query-builder.ts`),
the X API client's error classification and retry loop
(`src/services/x-client.ts`), and the pure core of the daily job
(`src/index.ts`), together with theorems settling the specification
claims about them.

Modelling conventions: JavaScript strings become Lean `String`
(`text.slice(0, n)` and `.trim()` become character-list operations on
the string's `data`); JS numbers that the code only ever uses as
non-negative integers (like counts, status codes, lengths) become
`Nat`; `Array.prototype.sort` with comparator `(a, b) => b.likes -
a.likes` is a stable sort placing larger like counts first (ECMA-262
requires sort stability), modelled by stable insertion sort; a JS `Map` built by inserting every
user in order (later insertions overwriting earlier ones with the
same id) is modelled by a left fold over the user list; thrown
exceptions become `Except`.
-/

namespace XToSlack

/-- Type `User` from `src/types/x-api.ts`. -/
structure User where
  id : String
  name : String
  username : String
deriving DecidableEq, Repr

/-- Type `PublicMetrics` from `src/types/x-api.ts`. -/
structure PublicMetrics where
  retweet_count : Nat
  reply_count : Nat
  like_count : Nat
  quote_count : Nat
  bookmark_count : Nat
  impression_count : Nat
deriving DecidableEq, Repr

/-- Type `Tweet` from `src/types/x-api.ts`. -/
structure Tweet where
  id : String
  text : String
  author_id : String
  created_at : String
  public_metrics : PublicMetrics
deriving DecidableEq, Repr

/-- The `includes` object of `TweetSearchResponse` (`users` is optional). -/
structure Includes where
  users : Option (List User)
deriving DecidableEq, Repr

/-- The `meta` object of `TweetSearchResponse` (only the required field). -/
structure ResponseMeta where
  result_count : Nat
deriving DecidableEq, Repr

/-- Type `TweetSearchResponse` from `src/types/x-api.ts`: `data` and
`includes` are optional. -/
structure TweetSearchResponse where
  data : Option (List Tweet)
  includes : Option Includes
  meta : ResponseMeta
deriving DecidableEq, Repr

/-- The inline author object of `ProcessedTweet`. -/
structure Author where
  name : String
  username : String
deriving DecidableEq, Repr

/-- Type `ProcessedTweet` from `src/types/x-api.ts`. -/
structure ProcessedTweet where
  id : String
  text : String
  author : Author
  created_at : String
  likes : Nat
  retweets : Nat
  url : String
deriving DecidableEq, Repr

/-- Constant `DUPLICATE_CHECK_LENGTH` in `tweet-processor.ts`. -/
def DUPLICATE_CHECK_LENGTH : Nat := 100

/-- Constant `DEFAULT_DISPLAY_LIMIT` in `tweet-processor.ts`. -/
def DEFAULT_DISPLAY_LIMIT : Nat := 10

/-- The `tweets` local of `processTweets`: `response.data || []`. -/
def tweetsOf (response : TweetSearchResponse) : List Tweet :=
  response.data.getD []

/-- The `users` local of `processTweets`: `response.includes?.users || []`. -/
def usersOf (response : TweetSearchResponse) : List User :=
  match response.includes with
  | none => []
  | some inc => inc.users.getD []

/-- Looking up `id` in the `Map` built by `createUserMap` (`users.forEach
(user) => map.set(user.id, user)`): a later entry with the same id
overwrites an earlier one, so the lookup is a left fold over the list. -/
def lookupUser (users : List User) (id : String) : Option User :=
  users.foldl (fun acc u => if u.id = id then some u else acc) none

/-- Function `convertToProcessedTweet` from `tweet-processor.ts`: resolve the
author via the user map; return `none` (the code's `null`) when the
author is missing, otherwise build the `ProcessedTweet`. -/
def convertToProcessedTweet (users : List User) (tweet : Tweet) :
    Option ProcessedTweet :=
  match lookupUser users tweet.author_id with
  | none => none
  | some user =>
      some
        { id := tweet.id
          text := tweet.text
          author := { name := user.name, username := user.username }
          created_at := tweet.created_at
          likes := tweet.public_metrics.like_count
          retweets := tweet.public_metrics.retweet_count
          url := "https://x.com/" ++ user.username ++ "/status/" ++ tweet.id }

/-- Function `filterByLikes` from `tweet-processor.ts`: keep tweets with
`tweet.likes >= minLikes`. -/
def filterByLikes (tweets : List ProcessedTweet) (minLikes : Nat) :
    List ProcessedTweet :=
  tweets.filter (fun tweet => minLikes ≤ tweet.likes)

/-- JS `s.slice(0, n)`: the first `n` characters of `s`. -/
def strTake (s : String) (n : Nat) : String :=
  ⟨s.data.take n⟩

/-- JS `s.trim()`: strip leading and trailing whitespace characters. -/
def strTrim (s : String) : String :=
  ⟨((s.data.dropWhile Char.isWhitespace).reverse.dropWhile
      Char.isWhitespace).reverse⟩

/-- The dedup key of `removeDuplicates`:
`tweet.text.slice(0, DUPLICATE_CHECK_LENGTH).trim()`. -/
def dedupKey (tweet : ProcessedTweet) : String :=
  strTrim (strTake tweet.text DUPLICATE_CHECK_LENGTH)

/-- The loop of `removeDuplicates`, with the `seen` set made explicit as
the list of keys added so far. -/
def removeDuplicatesAux : List ProcessedTweet → List String → List ProcessedTweet
  | [], _ => []
  | tweet :: rest, seen =>
      if dedupKey tweet ∈ seen then
        removeDuplicatesAux rest seen
      else
        tweet :: removeDuplicatesAux rest (dedupKey tweet :: seen)

/-- Function `removeDuplicates` from `tweet-processor.ts`: keep the first
occurrence of each dedup key, in input order. -/
def removeDuplicates (tweets : List ProcessedTweet) : List ProcessedTweet :=
  removeDuplicatesAux tweets []

/-- The comparator `(a, b) => b.likes - a.likes`: `a` may precede `b`
exactly when `b.likes ≤ a.likes`. -/
def likesDesc (a b : ProcessedTweet) : Bool :=
  decide (b.likes ≤ a.likes)

/-- One insertion step of the stable sort: walk past every element with
strictly more likes, insert before the first element with at most as
many likes. -/
def insertLikes (a : ProcessedTweet) : List ProcessedTweet → List ProcessedTweet
  | [] => [a]
  | b :: l => if likesDesc a b then a :: b :: l else b :: insertLikes a l

/-- Function `sortByLikes` from `tweet-processor.ts`:
`[...tweets].sort((a, b) => b.likes - a.likes)`. ECMA-262 requires
`Array.prototype.sort` to be stable, so the call is the stable sort by
like count descending, modelled here by stable insertion sort. -/
def sortByLikes : List ProcessedTweet → List ProcessedTweet
  | [] => []
  | a :: l => insertLikes a (sortByLikes l)

/-- The conversion stage of `processTweets`: map every raw tweet through
`convertToProcessedTweet` and drop the `null`s. -/
def extractProcessed (response : TweetSearchResponse) : List ProcessedTweet :=
  (tweetsOf response).filterMap (convertToProcessedTweet (usersOf response))

/-- Function `processTweets` from `tweet-processor.ts`: early-return `[]` on no
tweets, else convert, filter by likes, deduplicate, sort, truncate. -/
def processTweets (response : TweetSearchResponse) (minLikes : Nat)
    (displayLimit : Nat := DEFAULT_DISPLAY_LIMIT) : List ProcessedTweet :=
  if (tweetsOf response).isEmpty then
    []
  else
    let processedTweets := extractProcessed response
    let filteredByLikes := filterByLikes processedTweets minLikes
    let deduplicated := removeDuplicates filteredByLikes
    let sorted := sortByLikes deduplicated
    sorted.take displayLimit

/-- Type `GlobalSettings` from `src/types/config.ts`; validated values are
non-negative integers, so `Nat`. -/
structure GlobalSettings where
  min_likes : Nat
  max_results : Nat
  lang : String
deriving DecidableEq, Repr

/-- Type `KeywordEntry` from `src/types/config.ts` (`min_likes` optional). -/
structure KeywordEntry where
  term : String
  min_likes : Option Nat := none
deriving DecidableEq, Repr

/-- Type `KeywordConfig` from `src/types/config.ts`. -/
structure KeywordConfig where
  version : Nat
  global_settings : GlobalSettings
  keywords : List KeywordEntry
deriving DecidableEq, Repr

/-- The two failure modes of `buildSearchQueries` (both thrown as `Error`
in the source; the spec names them `ConfigError` and `QueryTooLongError`). -/
inductive QueryError where
  | configError : QueryError
  | queryTooLong : Nat → QueryError
deriving DecidableEq, Repr

/-- Constant `QUERY_MAX_LENGTH` in `query-builder.ts`. -/
def QUERY_MAX_LENGTH : Nat := 1024

/-- The per-keyword mapping inside `buildSearchQueries`: a term containing
a space character (`k.term.includes(' ')`) is wrapped in double quotes,
any other term is left as is. -/
def quoteTerm (term : String) : String :=
  if term.toList.contains ' ' then "\"" ++ term ++ "\"" else term

/-- The `keywordTerms` local of `buildSearchQueries`. -/
def keywordTerms (keywords : List KeywordEntry) : List String :=
  keywords.map (fun k => quoteTerm k.term)

/-- The `fullQuery` local of `buildSearchQueries`:
`` `(${terms.join(' OR ')}) ${BASE_CONDITIONS} lang:${lang}` `` with
`BASE_CONDITIONS = "-is:retweet"`. -/
def fullQuery (keywords : List KeywordEntry) (settings : GlobalSettings) :
    String :=
  "(" ++ String.intercalate " OR " (keywordTerms keywords) ++ ") " ++
    "-is:retweet" ++ " " ++ "lang:" ++ settings.lang

/-- Function `buildSearchQueries` from `query-builder.ts`: throw on an empty
keyword list, throw when the composed query exceeds `QUERY_MAX_LENGTH`,
otherwise return the single-element query list. -/
def buildSearchQueries (keywords : List KeywordEntry)
    (globalSettings : GlobalSettings) : Except QueryError (List String) :=
  if keywords.isEmpty then
    .error .configError
  else
    let q := fullQuery keywords globalSettings
    if QUERY_MAX_LENGTH < q.length then
      .error (.queryTooLong q.length)
    else
      .ok [q]

/-- The error categories of the client, one per message branch of
`handleErrorResponse` in `x-client.ts`, plus the two synthesized
status-0 failures of `searchRecentTweets` (timeout / other network
error). -/
inductive ErrorCategory where
  | auth
  | quota
  | rateLimit
  | serverError
  | generic
  | timedOut
  | network
deriving DecidableEq, Repr

/-- Type `XApiClientError`: the carried status code together with which
message branch produced it. -/
structure ClientError where
  statusCode : Nat
  category : ErrorCategory
deriving DecidableEq, Repr

/-- The `switch (statusCode)` of `handleErrorResponse`: 401/403 auth,
402 quota, 429 rate limit, 500/502/503/504 server error, default
generic. -/
def classifyStatus (statusCode : Nat) : ErrorCategory :=
  if statusCode = 401 ∨ statusCode = 403 then .auth
  else if statusCode = 402 then .quota
  else if statusCode = 429 then .rateLimit
  else if statusCode = 500 ∨ statusCode = 502 ∨ statusCode = 503 ∨
      statusCode = 504 then .serverError
  else .generic

/-- What the environment does to one HTTP attempt of
`searchRecentTweets`: an HTTP response with some status and body, a
request timeout (`AbortError`), or another network failure. -/
inductive AttemptResult where
  | http (status : Nat) (body : TweetSearchResponse)
  | timeout
  | networkError
deriving DecidableEq, Repr

/-- One attempt of `searchRecentTweets` in `x-client.ts`: a `response.ok`
(2xx) status returns the body; any other status throws the
`handleErrorResponse` classification with that status code; a timeout
throws an `XApiClientError` with status code 0 (and a timeout message);
any other network failure also throws with status code 0. -/
def searchRecentTweets (attempt : AttemptResult) :
    Except ClientError TweetSearchResponse :=
  match attempt with
  | .http status body =>
      if 200 ≤ status ∧ status < 300 then
        .ok body
      else
        .error ⟨status, classifyStatus status⟩
  | .timeout => .error ⟨0, .timedOut⟩
  | .networkError => .error ⟨0, .network⟩

/-- The `for (let attempt = 0; attempt <= maxRetries; attempt++)` loop of
`searchRecentTweetsWithRetry`, with the environment's outcome of the
n-th attempt given by `env n` and `retriesLeft = maxRetries - attempt`
(so `attempt < maxRetries` exactly when `retriesLeft` is nonzero).
Returns the result together with the number of attempts actually
issued. On failure: statuses 401, 402, 403, 429 are re-thrown at
once; a 5xx status with retries left sleeps `retryDelay` and
continues; every other failure is re-thrown at once. -/
def searchWithRetryGo (env : Nat → AttemptResult) :
    Nat → Nat → Except ClientError TweetSearchResponse × Nat
  | retriesLeft, attempt =>
    match searchRecentTweets (env attempt) with
    | .ok r => (.ok r, attempt + 1)
    | .error e =>
        if e.statusCode = 401 ∨ e.statusCode = 402 ∨ e.statusCode = 403 ∨
            e.statusCode = 429 then
          (.error e, attempt + 1)
        else
          match retriesLeft with
          | 0 => (.error e, attempt + 1)
          | n + 1 =>
              if 500 ≤ e.statusCode ∧ e.statusCode < 600 then
                searchWithRetryGo env n (attempt + 1)
              else
                (.error e, attempt + 1)

/-- Function `searchRecentTweetsWithRetry` from `x-client.ts` (default:
`maxRetries = 1`), returning the result and the number of attempts
issued. -/
def searchRecentTweetsWithRetry (env : Nat → AttemptResult)
    (maxRetries : Nat := 1) : Except ClientError TweetSearchResponse × Nat :=
  searchWithRetryGo env maxRetries 0

/-- Function `getMinLikes` from `src/config.ts`: the keyword's own `min_likes`
when present, else the global one. (Never called by the daily job.) -/
def getMinLikes (keyword : KeywordEntry) (globalSettings : GlobalSettings) :
    Nat :=
  keyword.min_likes.getD globalSettings.min_likes

/-- The pure core of `executeDailyJob` in `src/index.ts`: build the
queries, take the first (`queries[0]`), fetch (the response is a
parameter here), and process with `global_settings.min_likes` and the
default display limit. Returns the query actually searched and the
processed tweets. -/
def executeDailyJobCore (config : KeywordConfig)
    (response : TweetSearchResponse) :
    Except QueryError (String × List ProcessedTweet) := do
  let queries ← buildSearchQueries config.keywords config.global_settings
  let query := queries.headD ""
  let processedTweets := processTweets response config.global_settings.min_likes
  pure (query, processedTweets)

/-- The query format as claim C4 words it: every term that contains ANY
whitespace character is wrapped in double quotes, every other term is
unquoted, OR-joined in input order, followed by the retweet-exclusion
and language clauses. -/
def specQueryAnyWhitespace (keywords : List KeywordEntry)
    (settings : GlobalSettings) : String :=
  "(" ++
      String.intercalate " OR "
        (keywords.map (fun k =>
          if k.term.toList.any Char.isWhitespace then "\"" ++ k.term ++ "\""
          else k.term)) ++
    ") -is:retweet lang:" ++ settings.lang

/-- The query format as the amended claim C4 words it: every term that
contains a space character is wrapped in double quotes, every other
term (even one containing other whitespace) is unquoted, OR-joined in
input order, followed by the retweet-exclusion and language clauses. -/
def specQuerySpaceQuoted (keywords : List KeywordEntry)
    (settings : GlobalSettings) : String :=
  "(" ++
      String.intercalate " OR "
        (keywords.map (fun k =>
          if k.term.toList.contains ' ' then "\"" ++ k.term ++ "\""
          else k.term)) ++
    ") -is:retweet lang:" ++ settings.lang

/-! Concrete fixtures used by the scenario theorem, the counterexamples
and the witnesses. -/

/-- The single included user of the scenario response. -/
def alice : User := ⟨"u1", "Alice", "alice"⟩

/-- Metrics with a given like count and every other count zero. -/
def metricsWith (likes : Nat) : PublicMetrics := ⟨0, 0, likes, 0, 0, 0⟩

/-- Scenario A, post 1: 2 likes. -/
def tweetAlpha : Tweet := ⟨"1", "alpha post", "u1", "2026-01-01", metricsWith 2⟩

/-- Scenario A, post 2: 10 likes, first of the duplicate pair. -/
def tweetNews1 : Tweet :=
  ⟨"2", "same news today", "u1", "2026-01-02", metricsWith 10⟩

/-- Scenario A, post 3: 10 likes, same trimmed first-100-character text
as post 2. -/
def tweetNews2 : Tweet :=
  ⟨"3", "  same news today  ", "u1", "2026-01-03", metricsWith 10⟩

/-- Scenario A, post 4: 5 likes. -/
def tweetOther : Tweet :=
  ⟨"4", "something else", "u1", "2026-01-04", metricsWith 5⟩

/-- The scenario A response: 4 posts with likes [2, 10, 10, 5], authors
all resolvable. -/
def scenarioAResponse : TweetSearchResponse :=
  ⟨some [tweetAlpha, tweetNews1, tweetNews2, tweetOther], some ⟨some [alice]⟩, ⟨4⟩⟩

/-- The processed form of `tweetNews1`. -/
def processedNews1 : ProcessedTweet :=
  ⟨"2", "same news today", ⟨"Alice", "alice"⟩, "2026-01-02", 10, 0,
    "https://x.com/alice/status/2"⟩

/-- The processed form of `tweetOther`. -/
def processedOther : ProcessedTweet :=
  ⟨"4", "something else", ⟨"Alice", "alice"⟩, "2026-01-04", 5, 0,
    "https://x.com/alice/status/4"⟩

/-- A well-formed empty search response body. -/
def emptyResponse : TweetSearchResponse := ⟨none, none, ⟨0⟩⟩

/-- A response with one post but no `includes` at all. -/
def noUsersResponse : TweetSearchResponse := ⟨some [tweetAlpha], none, ⟨1⟩⟩

/-- A response with an empty `data` array. -/
def emptyDataResponse : TweetSearchResponse :=
  ⟨some [], some ⟨some [alice]⟩, ⟨0⟩⟩

/-- An environment whose first attempt returns the given HTTP status and
whose second attempt succeeds. -/
def thenOkEnv (status : Nat) : Nat → AttemptResult :=
  fun n => if n = 0 then .http status emptyResponse else .http 200 emptyResponse

/-- The global settings of the query-builder scenarios (`lang: ja`). -/
def jaSettings : GlobalSettings := ⟨3, 50, "ja"⟩

/-- Scenario keyword `#Rails` (no whitespace). -/
def railsKeyword : KeywordEntry := ⟨"#Rails", none⟩

/-- Scenario keyword `Hono Framework` (contains a space). -/
def honoKeyword : KeywordEntry := ⟨"Hono Framework", none⟩

/-- A keyword whose term contains a tab but no space. -/
def tabKeyword : KeywordEntry := ⟨"a\tb", none⟩

/-- Sixty 20-character keywords: the composed query exceeds 1024
characters. -/
def manyKeywords : List KeywordEntry :=
  List.replicate 60 ⟨"abcdefghijklmnopqrst", none⟩

/-- A config whose keywords carry per-keyword `min_likes` overrides. -/
def configWithOverrides : KeywordConfig :=
  ⟨1, jaSettings, [⟨"#Rails", some 99⟩, ⟨"Hono Framework", some 0⟩]⟩

/-- The same config with every per-keyword `min_likes` absent. -/
def configPlain : KeywordConfig :=
  ⟨1, jaSettings, [⟨"#Rails", none⟩, ⟨"Hono Framework", none⟩]⟩

/-! Helper lemmas about the stable sort. -/

theorem mem_insertLikes {c a : ProcessedTweet} {l : List ProcessedTweet} :
    c ∈ insertLikes a l ↔ c = a ∨ c ∈ l := by
  induction l with
  | nil => simp [insertLikes]
  | cons b l ih =>
      simp only [insertLikes]
      split
      · simp [List.mem_cons]
      · simp [List.mem_cons, ih]
        tauto

theorem pairwise_insertLikes {a : ProcessedTweet} {l : List ProcessedTweet}
    (h : l.Pairwise (fun x y => y.likes ≤ x.likes)) :
    (insertLikes a l).Pairwise (fun x y => y.likes ≤ x.likes) := by
  induction l with
  | nil => simp [insertLikes]
  | cons b l ih =>
      rw [List.pairwise_cons] at h
      obtain ⟨hb, hl⟩ := h
      simp only [insertLikes]
      split
      next hc =>
        have hba : b.likes ≤ a.likes := by simpa [likesDesc] using hc
        refine List.Pairwise.cons ?_ (List.Pairwise.cons hb hl)
        intro c hcmem
        rcases List.mem_cons.mp hcmem with rfl | hcl
        · exact hba
        · exact le_trans (hb c hcl) hba
      next hc =>
        have hab : a.likes ≤ b.likes := by
          simp [likesDesc] at hc
          omega
        refine List.Pairwise.cons ?_ (ih hl)
        intro c hcmem
        rcases mem_insertLikes.mp hcmem with rfl | hcl
        · exact hab
        · exact hb c hcl

theorem sortByLikes_pairwise (l : List ProcessedTweet) :
    (sortByLikes l).Pairwise (fun x y => y.likes ≤ x.likes) := by
  induction l with
  | nil => simp [sortByLikes]
  | cons a l ih => exact pairwise_insertLikes ih

theorem mem_sortByLikes {p : ProcessedTweet} {l : List ProcessedTweet} :
    p ∈ sortByLikes l ↔ p ∈ l := by
  induction l with
  | nil => simp [sortByLikes]
  | cons a l ih =>
      show p ∈ insertLikes a (sortByLikes l) ↔ _
      simp [mem_insertLikes, ih, List.mem_cons]

theorem filter_insertLikes (k : Nat) (a : ProcessedTweet)
    (l : List ProcessedTweet) :
    (insertLikes a l).filter (fun p => p.likes == k) =
      if a.likes == k then a :: l.filter (fun p => p.likes == k)
      else l.filter (fun p => p.likes == k) := by
  induction l with
  | nil => cases h : (a.likes == k) <;> simp [insertLikes, List.filter, h]
  | cons b l ih =>
      simp only [insertLikes]
      split
      next hc => simp [List.filter_cons]
      next hc =>
        rw [List.filter_cons, List.filter_cons, ih]
        by_cases hb : (b.likes == k) = true
        · by_cases ha : (a.likes == k) = true
          · exfalso
            simp [likesDesc] at hc
            have ha' : a.likes = k := by simpa using ha
            have hb' : b.likes = k := by simpa using hb
            omega
          · simp [hb, ha]
        · simp [hb]

theorem filter_sortByLikes (k : Nat) (l : List ProcessedTweet) :
    (sortByLikes l).filter (fun p => p.likes == k) =
      l.filter (fun p => p.likes == k) := by
  induction l with
  | nil => rfl
  | cons a l ih =>
      show (insertLikes a (sortByLikes l)).filter _ = _
      rw [filter_insertLikes, ih, List.filter_cons]

/-! Helper lemmas about deduplication. -/

theorem removeDuplicatesAux_subset {p : ProcessedTweet} :
    ∀ {l : List ProcessedTweet} {seen : List String},
      p ∈ removeDuplicatesAux l seen → p ∈ l := by
  intro l
  induction l with
  | nil => intro seen h; simp [removeDuplicatesAux] at h
  | cons t rest ih =>
      intro seen h
      simp only [removeDuplicatesAux] at h
      split at h
      · exact List.mem_cons_of_mem _ (ih h)
      · rcases List.mem_cons.mp h with rfl | h'
        · exact List.mem_cons_self _ _
        · exact List.mem_cons_of_mem _ (ih h')

theorem removeDuplicatesAux_find {p : ProcessedTweet} :
    ∀ {l : List ProcessedTweet} {seen : List String},
      p ∈ removeDuplicatesAux l seen →
        dedupKey p ∉ seen ∧
          l.find? (fun q => dedupKey q == dedupKey p) = some p := by
  intro l
  induction l with
  | nil => intro seen h; simp [removeDuplicatesAux] at h
  | cons t rest ih =>
      intro seen h
      simp only [removeDuplicatesAux] at h
      split at h
      next hseen =>
        obtain ⟨hnot, hfind⟩ := ih h
        have hne : ¬(dedupKey t == dedupKey p) = true := by
          simp only [beq_iff_eq]
          intro he
          rw [he] at hseen
          exact hnot hseen
        have hstep :=
          List.find?_cons_of_neg (p := fun q => dedupKey q == dedupKey p)
            (a := t) rest hne
        exact ⟨hnot, by rw [hstep, hfind]⟩
      next hseen =>
        rcases List.mem_cons.mp h with rfl | h'
        · exact ⟨hseen, List.find?_cons_of_pos _ (by simp)⟩
        · obtain ⟨hnot, hfind⟩ := ih h'
          have hpt : dedupKey p ≠ dedupKey t := by
            intro he
            exact hnot (by rw [he]; exact List.mem_cons_self _ _)
          refine ⟨fun hs => hnot (List.mem_cons_of_mem _ hs), ?_⟩
          have hne : ¬(dedupKey t == dedupKey p) = true := by
            simp only [beq_iff_eq]
            exact fun he => hpt he.symm
          have hstep :=
            List.find?_cons_of_neg (p := fun q => dedupKey q == dedupKey p)
              (a := t) rest hne
          rw [hstep, hfind]

theorem mem_removeDuplicates_find {p : ProcessedTweet}
    {l : List ProcessedTweet} (h : p ∈ removeDuplicates l) :
    l.find? (fun q => dedupKey q == dedupKey p) = some p :=
  (removeDuplicatesAux_find h).2

/-! Helper lemmas about author lookup. -/

theorem lookupUser_go {u : User} {id : String} :
    ∀ (l : List User) (acc : Option User),
      l.foldl (fun acc v => if v.id = id then some v else acc) acc = some u →
        (u ∈ l ∧ u.id = id) ∨ acc = some u := by
  intro l
  induction l with
  | nil => intro acc h; exact Or.inr h
  | cons v l ih =>
      intro acc h
      simp only [List.foldl_cons] at h
      rcases ih _ h with ⟨hm, hid⟩ | hacc
      · exact Or.inl ⟨List.mem_cons_of_mem _ hm, hid⟩
      · by_cases hv : v.id = id
        · rw [if_pos hv] at hacc
          obtain rfl := Option.some.inj hacc
          exact Or.inl ⟨List.mem_cons_self _ _, hv⟩
        · rw [if_neg hv] at hacc
          exact Or.inr hacc

theorem lookupUser_mem {users : List User} {id : String} {u : User}
    (h : lookupUser users id = some u) : u ∈ users ∧ u.id = id := by
  rcases lookupUser_go users none h with h' | h'
  · exact h'
  · simp at h'

theorem convertToProcessedTweet_some {users : List User} {t : Tweet}
    {p : ProcessedTweet} (h : convertToProcessedTweet users t = some p) :
    ∃ u, lookupUser users t.author_id = some u ∧ u ∈ users ∧
      u.id = t.author_id := by
  unfold convertToProcessedTweet at h
  cases hl : lookupUser users t.author_id with
  | none => rw [hl] at h; simp at h
  | some u => exact ⟨u, rfl, lookupUser_mem hl⟩

/-! Helper lemmas about the pipeline as a whole. -/

theorem processTweets_eq (resp : TweetSearchResponse) (m d : Nat) :
    processTweets resp m d =
      (sortByLikes
        (removeDuplicates (filterByLikes (extractProcessed resp) m))).take d := by
  unfold processTweets
  split
  next h =>
    have h0 : tweetsOf resp = [] := List.isEmpty_iff.mp h
    simp [extractProcessed, h0, filterByLikes, removeDuplicates,
      removeDuplicatesAux, sortByLikes]
  next h => rfl

theorem processTweets_mem_dedup {resp : TweetSearchResponse} {m d : Nat}
    {p : ProcessedTweet} (hp : p ∈ processTweets resp m d) :
    p ∈ removeDuplicates (filterByLikes (extractProcessed resp) m) := by
  rw [processTweets_eq] at hp
  exact mem_sortByLikes.mp (List.take_subset _ _ hp)

theorem processTweets_mem_filtered {resp : TweetSearchResponse} {m d : Nat}
    {p : ProcessedTweet} (hp : p ∈ processTweets resp m d) :
    p ∈ extractProcessed resp ∧ m ≤ p.likes := by
  have h1 := removeDuplicatesAux_subset (processTweets_mem_dedup hp)
  rw [filterByLikes, List.mem_filter] at h1
  exact ⟨h1.1, of_decide_eq_true h1.2⟩

theorem processTweets_of_no_users {resp : TweetSearchResponse} {m d : Nat}
    (h : usersOf resp = []) : processTweets resp m d = [] := by
  have hext : extractProcessed resp = [] := by
    simp only [extractProcessed, h]
    simp [convertToProcessedTweet, lookupUser]
  rw [processTweets_eq, hext]
  simp [filterByLikes, removeDuplicates, removeDuplicatesAux, sortByLikes]

/-! Helper lemma about the retry loop with no retries left. -/

theorem searchWithRetryGo_zero_snd (env : Nat → AttemptResult) (att : Nat) :
    (searchWithRetryGo env 0 att).2 = att + 1 := by
  cases h : searchRecentTweets (env att) with
  | ok r => simp [searchWithRetryGo, h]
  | error e =>
      simp only [searchWithRetryGo, h]
      split <;> rfl

theorem searchWithRetryGo_ok (env : Nat → AttemptResult) (rl att : Nat)
    (r : TweetSearchResponse) (he : searchRecentTweets (env att) = .ok r) :
    searchWithRetryGo env rl att = (.ok r, att + 1) := by
  conv_lhs => rw [searchWithRetryGo, he]

theorem searchWithRetryGo_error_stop (env : Nat → AttemptResult) (rl att : Nat)
    (e : ClientError) (he : searchRecentTweets (env att) = .error e)
    (h : (e.statusCode = 401 ∨ e.statusCode = 402 ∨ e.statusCode = 403 ∨
            e.statusCode = 429) ∨
          ¬(500 ≤ e.statusCode ∧ e.statusCode < 600) ∨ rl = 0) :
    searchWithRetryGo env rl att = (.error e, att + 1) := by
  rcases rl with _ | n
  · conv_lhs => rw [searchWithRetryGo, he]
    by_cases hnr : e.statusCode = 401 ∨ e.statusCode = 402 ∨
        e.statusCode = 403 ∨ e.statusCode = 429
    · simp only [if_pos hnr]
    · simp only [if_neg hnr]
  · conv_lhs => rw [searchWithRetryGo, he]
    by_cases hnr : e.statusCode = 401 ∨ e.statusCode = 402 ∨
        e.statusCode = 403 ∨ e.statusCode = 429
    · simp only [if_pos hnr]
    · simp only [if_neg hnr]
      rcases h with h | h | h
      · exact absurd h hnr
      · simp only [if_neg h]
      · exact absurd h (Nat.succ_ne_zero n)

theorem searchWithRetryGo_error_retry (env : Nat → AttemptResult) (n att : Nat)
    (e : ClientError) (he : searchRecentTweets (env att) = .error e)
    (hnr : ¬(e.statusCode = 401 ∨ e.statusCode = 402 ∨ e.statusCode = 403 ∨
      e.statusCode = 429))
    (h5 : 500 ≤ e.statusCode ∧ e.statusCode < 600) :
    searchWithRetryGo env (n + 1) att = searchWithRetryGo env n (att + 1) := by
  conv_lhs => rw [searchWithRetryGo, he]
  simp only [if_neg hnr, if_pos h5]

/-! Claim theorems. -/

/-- C1: the claim (and the policy header of the client's own test
specification) says a timed-out request — a `ClientError` synthesized
with status code 0 — is retryable, exactly like a server error. The
code re-raises it at once: with `maxRetries = 1`, a timed-out first
attempt produces the status-0 error after exactly one attempt and no
retry, while (for contrast) an HTTP 500 first attempt is retried and
succeeds on the second attempt. -/
theorem timeout_is_not_retried :
    searchRecentTweetsWithRetry (fun _ => .timeout) 1 =
      (.error ⟨0, .timedOut⟩, 1) ∧
    searchRecentTweetsWithRetry (thenOkEnv 500) 1 = (.ok emptyResponse, 2) :=
  ⟨rfl, rfl⟩

/-- C2, counterexample: status 501 lies in 500-504 but is classified by
the generic default message branch, not the server-error branch; and
status 505 lies outside 500-504 (and outside {401, 402, 403, 429})
yet `searchWithRetry` retries it — a second attempt is issued and its
success is returned. Both falsify the claim's "exactly 500-504"
classification/retry boundary. -/
theorem status_501_505_counterexample :
    classifyStatus 501 ≠ .serverError ∧
    searchRecentTweetsWithRetry (thenOkEnv 505) 1 = (.ok emptyResponse, 2) :=
  ⟨by decide, rfl⟩

/-- C2, amended: on a non-2xx first attempt with status `s`, the error is
classified as an upstream server error exactly when `s` is one of
500, 502, 503, 504 (so not for 501); it is classified as a generic
API error exactly when `s` is outside {401, 402, 403, 429} and
outside {500, 502, 503, 504} (so 501 and 505-599 are generic); with
`maxRetries = 1` a second attempt is issued exactly when
`500 ≤ s < 600`; and outside that range the call stops after one
attempt with the classified error. -/
theorem classify_and_retry_boundary (s : Nat) (body : TweetSearchResponse)
    (env : Nat → AttemptResult) (h0 : env 0 = .http s body)
    (hnotOk : ¬(200 ≤ s ∧ s < 300)) :
    (classifyStatus s = .serverError ↔ (s = 500 ∨ s = 502 ∨ s = 503 ∨ s = 504)) ∧
    (classifyStatus s = .generic ↔
      ¬(s = 401 ∨ s = 402 ∨ s = 403 ∨ s = 429 ∨
        s = 500 ∨ s = 502 ∨ s = 503 ∨ s = 504)) ∧
    ((searchRecentTweetsWithRetry env 1).2 = 2 ↔ (500 ≤ s ∧ s < 600)) ∧
    (¬(500 ≤ s ∧ s < 600) →
      searchRecentTweetsWithRetry env 1 = (.error ⟨s, classifyStatus s⟩, 1)) := by
  have hcls : classifyStatus s = .serverError ↔
      (s = 500 ∨ s = 502 ∨ s = 503 ∨ s = 504) := by
    unfold classifyStatus
    split_ifs with h1 h2 h3 h4 <;> simp_all <;> omega
  have hgen : classifyStatus s = .generic ↔
      ¬(s = 401 ∨ s = 402 ∨ s = 403 ∨ s = 429 ∨
        s = 500 ∨ s = 502 ∨ s = 503 ∨ s = 504) := by
    unfold classifyStatus
    split_ifs with h1 h2 h3 h4 <;> simp_all <;> omega
  have hfirst : searchRecentTweets (env 0) = .error ⟨s, classifyStatus s⟩ := by
    rw [h0]
    simp [searchRecentTweets, hnotOk]
  refine ⟨hcls, hgen, ?_, ?_⟩
  · by_cases hnr : s = 401 ∨ s = 402 ∨ s = 403 ∨ s = 429
    · have hrun := searchWithRetryGo_error_stop env 1 0 _ hfirst (Or.inl hnr)
      rw [searchRecentTweetsWithRetry, hrun]
      constructor
      · intro h12; exact absurd h12 (by omega)
      · intro h5; exact absurd h5 (by omega)
    · by_cases h5 : 500 ≤ s ∧ s < 600
      · have hstep := searchWithRetryGo_error_retry env 0 0 _ hfirst hnr h5
        rw [searchRecentTweetsWithRetry, hstep, searchWithRetryGo_zero_snd]
        simp [h5]
      · have hrun := searchWithRetryGo_error_stop env 1 0 _ hfirst
          (Or.inr (Or.inl h5))
        rw [searchRecentTweetsWithRetry, hrun]
        constructor
        · intro h12; exact absurd h12 (by omega)
        · intro h5'; exact absurd h5' h5
  · intro h5
    by_cases hnr : s = 401 ∨ s = 402 ∨ s = 403 ∨ s = 429
    · exact searchWithRetryGo_error_stop env 1 0 _ hfirst (Or.inl hnr)
    · exact searchWithRetryGo_error_stop env 1 0 _ hfirst (Or.inr (Or.inl h5))

/-- C2, witness: the amended boundary at the concrete status 505 — not
classified as server error but as generic, yet retried (two
attempts). -/
theorem classify_and_retry_boundary_witness :
    (classifyStatus 505 = .serverError ↔
      (505 = 500 ∨ 505 = 502 ∨ 505 = 503 ∨ 505 = 504)) ∧
    (classifyStatus 505 = .generic ↔
      ¬(505 = 401 ∨ 505 = 402 ∨ 505 = 403 ∨ 505 = 429 ∨
        505 = 500 ∨ 505 = 502 ∨ 505 = 503 ∨ 505 = 504)) ∧
    ((searchRecentTweetsWithRetry (thenOkEnv 505) 1).2 = 2 ↔
      (500 ≤ 505 ∧ 505 < 600)) ∧
    (¬(500 ≤ 505 ∧ 505 < 600) →
      searchRecentTweetsWithRetry (thenOkEnv 505) 1 =
        (.error ⟨505, classifyStatus 505⟩, 1)) :=
  classify_and_retry_boundary 505 emptyResponse (thenOkEnv 505) rfl (by decide)

/-- C3: scenario A — four posts with likes [2, 10, 10, 5], the two
10-like posts sharing the same trimmed first-100-character text,
`minLikes = 3`, `displayLimit = 10` — yields exactly the
earlier-occurring 10-like post followed by the 5-like post. -/
theorem scenarioA_output :
    processTweets scenarioAResponse 3 10 = [processedNews1, processedOther] := by
  decide

/-- C4, counterexample: a term containing a tab but no space
(`"a\tb"`) is NOT quoted — `buildSearchQueries` checks
`term.includes(' ')`, not arbitrary whitespace — so the built query
differs from the claim's any-whitespace-quoted format. -/
theorem tab_term_not_quoted :
    buildSearchQueries [tabKeyword] jaSettings =
      .ok ["(a\tb) -is:retweet lang:ja"] ∧
    fullQuery [tabKeyword] jaSettings ≠
      specQueryAnyWhitespace [tabKeyword] jaSettings := by
  exact ⟨rfl, by decide⟩

/-- Splicing the fixed clauses: the source's piecewise concatenation
equals the single-literal form used by the claim's format. -/
theorem append_clauses_eq (I lang : String) :
    "(" ++ I ++ ") " ++ "-is:retweet" ++ " " ++ "lang:" ++ lang =
      "(" ++ I ++ ") -is:retweet lang:" ++ lang := by
  apply String.ext
  simp only [String.data_append, List.append_assoc]
  norm_num

/-- C4, amended: for every non-empty keyword list the composed query is
exactly the OR-group of all terms in input order — a term is
double-quoted exactly when it contains a space character (terms with
other whitespace stay unquoted) — followed by
`" -is:retweet lang:{lang}"`; and whenever the query is within the
length budget, `buildSearchQueries` returns exactly that string. -/
theorem query_format (keywords : List KeywordEntry)
    (settings : GlobalSettings) (h : keywords ≠ []) :
    fullQuery keywords settings = specQuerySpaceQuoted keywords settings ∧
    ((fullQuery keywords settings).length ≤ QUERY_MAX_LENGTH →
      buildSearchQueries keywords settings =
        .ok [specQuerySpaceQuoted keywords settings]) := by
  have hq : fullQuery keywords settings =
      specQuerySpaceQuoted keywords settings := by
    unfold fullQuery specQuerySpaceQuoted keywordTerms quoteTerm
    exact append_clauses_eq _ _
  refine ⟨hq, fun hlen => ?_⟩
  unfold buildSearchQueries
  rw [if_neg (by simpa [List.isEmpty_iff] using h), if_neg (by omega), hq]

/-- C4, witness: scenario C — `#Rails` stays unquoted, `Hono Framework`
(contains a space) is quoted, yielding exactly
`(#Rails OR "Hono Framework") -is:retweet lang:ja`. -/
theorem query_format_witness :
    buildSearchQueries [railsKeyword, honoKeyword] jaSettings =
      .ok [specQuerySpaceQuoted [railsKeyword, honoKeyword] jaSettings] ∧
    specQuerySpaceQuoted [railsKeyword, honoKeyword] jaSettings =
      "(#Rails OR \"Hono Framework\") -is:retweet lang:ja" :=
  ⟨(query_format [railsKeyword, honoKeyword] jaSettings (by decide)).2
      (by decide),
    by decide⟩

/-- C7: for every non-empty keyword list, `buildSearchQueries` fails with
`QueryTooLongError` exactly when the composed query is strictly
longer than 1024 characters, returning zero queries, and otherwise
(length ≤ 1024, so a 1024-character query is still accepted) returns
exactly one query — the composed string itself. -/
theorem query_length_budget (keywords : List KeywordEntry)
    (settings : GlobalSettings) (h : keywords ≠ []) :
    (QUERY_MAX_LENGTH < (fullQuery keywords settings).length →
      buildSearchQueries keywords settings =
        .error (.queryTooLong (fullQuery keywords settings).length)) ∧
    ((fullQuery keywords settings).length ≤ QUERY_MAX_LENGTH →
      buildSearchQueries keywords settings =
        .ok [fullQuery keywords settings]) := by
  have hne : ¬(List.isEmpty keywords) = true := by
    simpa [List.isEmpty_iff] using h
  constructor
  · intro hlong
    unfold buildSearchQueries
    rw [if_neg hne, if_pos hlong]
  · intro hshort
    unfold buildSearchQueries
    rw [if_neg hne, if_neg (by omega)]

set_option maxRecDepth 8192 in
/-- C7, witness: scenario E — sixty 20-character keywords compose a query
beyond 1024 characters and raise `QueryTooLongError` with zero
queries returned, while the single-keyword scenario-B query is
returned as exactly one query. -/
theorem query_length_budget_witness :
    buildSearchQueries manyKeywords jaSettings =
      .error (.queryTooLong (fullQuery manyKeywords jaSettings).length) ∧
    buildSearchQueries [railsKeyword] jaSettings =
      .ok [fullQuery [railsKeyword] jaSettings] :=
  ⟨(query_length_budget manyKeywords jaSettings (by decide)).1 (by decide),
    (query_length_budget [railsKeyword] jaSettings (by decide)).2 (by decide)⟩

/-- C5: any two output posts of `processTweets` with equal dedup keys
(trimmed first 100 characters of text) are the same post, and every
output post is the earliest post with its key in the post-filter,
pre-dedup order (`find?` returns it first), regardless of likes. -/
theorem dedup_key_unique_and_first (resp : TweetSearchResponse)
    (minLikes limit : Nat) (p q : ProcessedTweet)
    (hp : p ∈ processTweets resp minLikes limit)
    (hq : q ∈ processTweets resp minLikes limit) :
    (dedupKey p = dedupKey q → p = q) ∧
    (filterByLikes (extractProcessed resp) minLikes).find?
        (fun r => dedupKey r == dedupKey p) = some p := by
  have hfp := mem_removeDuplicates_find (processTweets_mem_dedup hp)
  have hfq := mem_removeDuplicates_find (processTweets_mem_dedup hq)
  refine ⟨fun hk => ?_, hfp⟩
  rw [← hk] at hfq
  exact Option.some.inj (hfp.symm.trans hfq)

/-- C5, witness: in scenario A the surviving 10-like post is the first
post with its key in the filtered, pre-dedup order. -/
theorem dedup_key_unique_and_first_witness :
    (dedupKey processedNews1 = dedupKey processedNews1 →
      processedNews1 = processedNews1) ∧
    (filterByLikes (extractProcessed scenarioAResponse) 3).find?
        (fun r => dedupKey r == dedupKey processedNews1) = some processedNews1 :=
  dedup_key_unique_and_first scenarioAResponse 3 10 processedNews1
    processedNews1 (by decide) (by decide)

/-- C6: the output of `processTweets` is sorted by likes descending, and
the sort is stable — restricted to any fixed like count `k`, the
output is a sublist of the post-dedup (pre-sort) sequence, so
equal-likes posts keep their pre-sort relative order. -/
theorem output_sorted_and_stable (resp : TweetSearchResponse)
    (minLikes limit k : Nat) :
    (processTweets resp minLikes limit).Pairwise
        (fun a b => b.likes ≤ a.likes) ∧
    ((processTweets resp minLikes limit).filter (fun p => p.likes == k)).Sublist
      ((removeDuplicates (filterByLikes (extractProcessed resp)
          minLikes)).filter (fun p => p.likes == k)) := by
  rw [processTweets_eq]
  constructor
  · exact List.Pairwise.sublist (List.take_sublist _ _) (sortByLikes_pairwise _)
  · have h1 := List.Sublist.filter (fun p => p.likes == k)
      (List.take_sublist limit
        (sortByLikes (removeDuplicates
          (filterByLikes (extractProcessed resp) minLikes))))
    rwa [filter_sortByLikes] at h1

/-- C8: every output post's author was resolved from the included-users
set (a user matching its raw post's `author_id` exists there); a
missing `includes`, a missing `includes.users`, a missing `data` or
an empty `data` all yield the empty list, never an error. -/
theorem author_resolution (resp : TweetSearchResponse) (minLikes limit : Nat) :
    (∀ p ∈ processTweets resp minLikes limit,
      ∃ t ∈ tweetsOf resp, ∃ u ∈ usersOf resp,
        u.id = t.author_id ∧
          convertToProcessedTweet (usersOf resp) t = some p) ∧
    (resp.includes = none → processTweets resp minLikes limit = []) ∧
    (∀ inc, resp.includes = some inc → inc.users = none →
      processTweets resp minLikes limit = []) ∧
    (resp.data = none → processTweets resp minLikes limit = []) ∧
    (resp.data = some [] → processTweets resp minLikes limit = []) := by
  refine ⟨?_, ?_, ?_, ?_, ?_⟩
  · intro p hp
    obtain ⟨hext, -⟩ := processTweets_mem_filtered hp
    rw [extractProcessed, List.mem_filterMap] at hext
    obtain ⟨t, ht, hconv⟩ := hext
    obtain ⟨u, hlk, hu, hid⟩ := convertToProcessedTweet_some hconv
    exact ⟨t, ht, u, hu, hid, hconv⟩
  · intro h
    exact processTweets_of_no_users (by simp [usersOf, h])
  · intro inc hinc hu
    exact processTweets_of_no_users (by simp [usersOf, hinc, hu])
  · intro h
    simp [processTweets, tweetsOf, h]
  · intro h
    simp [processTweets, tweetsOf, h]

/-- C8, witness: a response without `includes` and a response with empty
`data` both process to the empty list, and scenario A's surviving
10-like post has a resolvable author in the included-users set. -/
theorem author_resolution_witness :
    processTweets noUsersResponse 0 10 = [] ∧
    processTweets emptyDataResponse 0 10 = [] ∧
    (∃ t ∈ tweetsOf scenarioAResponse, ∃ u ∈ usersOf scenarioAResponse,
      u.id = t.author_id ∧
        convertToProcessedTweet (usersOf scenarioAResponse) t =
          some processedNews1) :=
  ⟨(author_resolution noUsersResponse 0 10).2.1 rfl,
    (author_resolution emptyDataResponse 0 10).2.2.2.2 rfl,
    (author_resolution scenarioAResponse 3 10).1 processedNews1 (by decide)⟩

/-- C9: every output post has at least `minLikes` likes, and the quality
filter's boundary is inclusive — any post with `likes ≥ minLikes`
(equality included, and everything when `minLikes = 0`) is kept by
`filterByLikes`. -/
theorem min_likes_filter (resp : TweetSearchResponse) (minLikes limit : Nat) :
    (∀ p ∈ processTweets resp minLikes limit, minLikes ≤ p.likes) ∧
    (∀ (l : List ProcessedTweet) (p : ProcessedTweet),
      p ∈ l → minLikes ≤ p.likes → p ∈ filterByLikes l minLikes) := by
  constructor
  · intro p hp
    exact (processTweets_mem_filtered hp).2
  · intro l p hl hlik
    rw [filterByLikes, List.mem_filter]
    exact ⟨hl, decide_eq_true hlik⟩

/-- C9, witness: with `minLikes = 5` the boundary post with exactly 5
likes appears in the output and is kept by the filter. -/
theorem min_likes_filter_witness :
    5 ≤ processedOther.likes ∧
    processedOther ∈ filterByLikes [processedOther] 5 :=
  ⟨(min_likes_filter scenarioAResponse 5 10).1 processedOther (by decide),
    (min_likes_filter scenarioAResponse 5 10).2 [processedOther]
      processedOther (by decide) (by decide)⟩

theorem keywordTerms_eq_map (ks : List KeywordEntry) :
    keywordTerms ks = (ks.map KeywordEntry.term).map quoteTerm := by
  simp [keywordTerms, List.map_map, Function.comp]

/-- C10: the per-keyword `min_likes` field never influences the daily
job — two configs with the same terms and global settings (but any
per-keyword `min_likes`) build the same query and produce the same
processed output from the same response. -/
theorem job_ignores_keyword_min_likes (ca cb : KeywordConfig)
    (r : TweetSearchResponse)
    (hterms : ca.keywords.map KeywordEntry.term =
      cb.keywords.map KeywordEntry.term)
    (hgs : ca.global_settings = cb.global_settings) :
    executeDailyJobCore ca r = executeDailyJobCore cb r := by
  have hkt : keywordTerms ca.keywords = keywordTerms cb.keywords := by
    rw [keywordTerms_eq_map, keywordTerms_eq_map, hterms]
  have hlen : ca.keywords.isEmpty = cb.keywords.isEmpty := by
    have hl := congrArg List.length hterms
    simp only [List.length_map] at hl
    cases ha : ca.keywords <;> cases hb : cb.keywords <;> simp_all
  have hbq : buildSearchQueries ca.keywords ca.global_settings =
      buildSearchQueries cb.keywords cb.global_settings := by
    unfold buildSearchQueries fullQuery
    rw [hkt, hgs, hlen]
  unfold executeDailyJobCore
  rw [hbq, hgs]

/-- C10, witness: a config whose keywords carry `min_likes` overrides and
the same config without them drive the job identically. -/
theorem job_ignores_keyword_min_likes_witness :
    executeDailyJobCore configWithOverrides scenarioAResponse =
      executeDailyJobCore configPlain scenarioAResponse :=
  job_ignores_keyword_min_likes configWithOverrides configPlain
    scenarioAResponse rfl rfl

end XToSlack
